import Mathlib

/-!
Shallow embedding of the tax-finch generic query/pagination engine.

The embedded functions are translated from:
  * `src/application/utils/queryHelper.ts`   — `parseQueryParams`,
    `buildPaginatedResponse`, `paginate` (cursor pagination, simple variant);
  * `src/application/utils/queryBuilder.ts`  — `QueryBuilder.applyFilters`,
    `QueryBuilder.applySorting`;
  * `src/infrastructure/database/utils/queryEngine.ts` — `runQuery`,
    `applyFilters`, `applySorting`, `simplePaginate` (page-based engine);
  * the legacy query engine (`src/unnamed/part_007`) — its `simplePaginate`;
  * the cursor helper (`src/unnamed/part_008`) — `paginateWithCursor`;
  * the page-based middleware (`src/unnamed/part_009`) — `queryParser`,
    with the global `queryEngineConfig` constants (defaultLimit 20,
    maxLimit 100, defaultOrdering "-createdAt").

JavaScript numbers are modelled as `Option Int`: `none` is `NaN`,
`some n` an integer value.  The model covers integer-valued numeric
strings; fractional numerals are outside its scope (no claim depends on
them).  A database query is a value recording its predicate list, its
ORDER BY clause and its LIMIT/OFFSET; executing a query over a list of
rows that match its predicates is modelled by `List.drop`/`List.take`.
-/

/-- A JavaScript number restricted to integer values; `none` models `NaN`. -/
abbrev JSNum := Option Int

/-- JS `Math.min(x, c)`: `NaN` (= `none`) propagates, as in JavaScript. -/
def jsMin (x : JSNum) (c : Int) : JSNum := x.map (fun n => min n c)

/-- JS `Math.max(x, c)`: `NaN` (= `none`) propagates, as in JavaScript. -/
def jsMax (x : JSNum) (c : Int) : JSNum := x.map (fun n => max n c)

/-- Numeric value of a digit string read left to right. -/
def digitsVal (ds : List Char) : Nat :=
  ds.foldl (fun acc c => acc * 10 + (c.toNat - 48)) 0

/-- Longest leading run of decimal digits. -/
def leadingDigits : List Char → List Char
  | [] => []
  | c :: cs => if c.isDigit then c :: leadingDigits cs else []

/-- Whitespace trimming on both ends of a character list. -/
def trimChars (cs : List Char) : List Char :=
  ((cs.dropWhile Char.isWhitespace).reverse.dropWhile Char.isWhitespace).reverse

/-- JavaScript `parseInt(s, 10)`: skip leading whitespace, optional sign,
then the longest digit run; `NaN` (= `none`) when no digit follows. -/
def jsParseInt (s : String) : Option Int :=
  match s.data.dropWhile Char.isWhitespace with
  | '-' :: rest =>
    if (leadingDigits rest).isEmpty then none
    else some (-(digitsVal (leadingDigits rest) : Int))
  | '+' :: rest =>
    if (leadingDigits rest).isEmpty then none
    else some ((digitsVal (leadingDigits rest) : Int))
  | cs =>
    if (leadingDigits cs).isEmpty then none
    else some ((digitsVal (leadingDigits cs) : Int))

/-- JavaScript `Number(s)` on integer-valued input: trimmed empty string
is `0`; an optional sign followed by digits only; anything else is `NaN`
(= `none`).  Fractional numerals are outside the model's scope. -/
def jsNumber (s : String) : Option Int :=
  match trimChars s.data with
  | [] => some 0
  | '-' :: rest =>
    if !rest.isEmpty && rest.all Char.isDigit then
      some (-(digitsVal rest : Int))
    else none
  | '+' :: rest =>
    if !rest.isEmpty && rest.all Char.isDigit then
      some ((digitsVal rest : Int))
    else none
  | cs =>
    if cs.all Char.isDigit then some ((digitsVal cs : Int)) else none

/-- A scalar JavaScript value. -/
inductive JSPrim
  | str (s : String)
  | num (n : Int)
deriving DecidableEq

/-- A JavaScript value as it appears in parsed filters: a string, an
integer number, an array of scalars (the only arrays the filter code
ever receives), `null`/`undefined` (collapsed), or `NaN`. -/
inductive JSValue
  | str (s : String)
  | num (n : Int)
  | arr (elems : List JSPrim)
  | null
  | nan
deriving DecidableEq

/-- The result of `Number(value)` packaged as a `JSValue` (`NaN` when non-numeric). -/
def jsNumberV (s : String) : JSValue :=
  match jsNumber s with
  | some n => JSValue.num n
  | none => JSValue.nan

/-- String interpolation `${value}` of a `JSValue`. -/
def JSValue.interp : JSValue → String
  | .str s => s
  | .num n => toString n
  | .arr _ => ""
  | .null => "null"
  | .nan => "NaN"

/-- JS `URLSearchParams.get k`: the first value recorded for `k`, else null. -/
def searchParamsGet (q : List (String × String)) (k : String) : Option String :=
  (q.find? (fun e => e.1 == k)).map (·.2)

/-- JavaScript object update `r[k] = v`: overwrite in place when the key
exists (keeping first-insertion order), else append. -/
def recordSet (r : List (String × α)) (k : String) (v : α) : List (String × α) :=
  if r.any (fun e => e.1 == k) then
    r.map (fun e => if e.1 == k then (k, v) else e)
  else r ++ [(k, v)]

/-- Sort direction. -/
inductive Dir
  | asc
  | desc
deriving DecidableEq

/-- The parsed sort spec `{ field, order }` of the cursor-based parser. -/
structure SortSpec where
  field : String
  order : Dir
deriving DecidableEq

/-- The `QueryOptions` interface of `queryHelper.ts` (cursor-based variant). -/
structure QueryOptionsCursor where
  limit : JSNum
  cursor : Option String
  sort : Option SortSpec
  filters : List (String × JSValue)
deriving DecidableEq

/-- Reserved keys of the cursor-based parser. -/
def reservedCursorKeys : List String := ["limit", "cursor", "sortBy", "order"]

/-- Function `parseQueryParams` of `queryHelper.ts`:
`limit = Math.min(Math.max(parseInt(query.get("limit") || "10", 10), 1), 100)`;
`cursor = query.get("cursor") || undefined`; `sortBy`/`order` build the sort
spec (absent or empty `sortBy` means no sort; `order` matches `"desc"`
case-insensitively); every other key with a truthy value becomes a filter,
coerced to a number when `Number(value)` is not `NaN`. -/
def parseQueryParams (query : List (String × String)) : QueryOptionsCursor :=
  let rawLimit :=
    match searchParamsGet query "limit" with
    | none => "10"
    | some s => if s = "" then "10" else s
  let limit := jsMin (jsMax (jsParseInt rawLimit) 1) 100
  let cursor :=
    match searchParamsGet query "cursor" with
    | none => none
    | some s => if s = "" then none else some s
  let sortOrder :=
    if (searchParamsGet query "order").map String.toLower == some "desc" then
      Dir.desc
    else Dir.asc
  let sort :=
    match searchParamsGet query "sortBy" with
    | none => none
    | some s => if s = "" then none else some (SortSpec.mk s sortOrder)
  let filters := query.foldl
    (fun acc e =>
      if !(reservedCursorKeys.contains e.1) && e.2 != "" then
        recordSet acc e.1 (jsNumberV e.2)
      else acc)
    []
  ⟨limit, cursor, sort, filters⟩

/-- Constant `queryEngineConfig.defaultLimit` (schema/config module). -/
def queryEngineConfigDefaultLimit : Int := 20

/-- Constant `queryEngineConfig.maxLimit` (schema/config module). -/
def queryEngineConfigMaxLimit : Int := 100

/-- Constant `queryEngineConfig.defaultOrdering` (schema/config module). -/
def queryEngineConfigDefaultOrdering : String := "-createdAt"

/-- The `QueryOptions` interface of the page-based middleware (`queryParser`). -/
structure QueryOptionsPage where
  fromPage : JSNum
  toPage : JSNum
  limit : JSNum
  ordering : String
  filters : List (String × String)
deriving DecidableEq

/-- Reserved keys of the page-based parser. -/
def reservedPageKeys : List String := ["from_page", "to_page", "limit", "ordering"]

/-- The `queryParser` middleware (`src/unnamed/part_009`):
`fromPage = Number(params.get("from_page") ?? 1)`,
`toPage = Number(params.get("to_page") ?? fromPage)`,
`limit = Math.min(Number(params.get("limit") ?? 20), 100)`,
`ordering = params.get("ordering") ?? "-createdAt"`, and every
non-reserved key becomes a filter (no truthiness check on the value). -/
def queryParser (searchParams : List (String × String)) : QueryOptionsPage :=
  let fromPage :=
    match searchParamsGet searchParams "from_page" with
    | none => some 1
    | some s => jsNumber s
  let toPage :=
    match searchParamsGet searchParams "to_page" with
    | none => fromPage
    | some s => jsNumber s
  let limit := jsMin
    (match searchParamsGet searchParams "limit" with
     | none => some queryEngineConfigDefaultLimit
     | some s => jsNumber s)
    queryEngineConfigMaxLimit
  let ordering := (searchParamsGet searchParams "ordering").getD
    queryEngineConfigDefaultOrdering
  let filters := searchParams.foldl
    (fun acc e =>
      if !(reservedPageKeys.contains e.1) then recordSet acc e.1 e.2 else acc)
    []
  ⟨fromPage, toPage, limit, ordering, filters⟩

/-- A filter operator of a resource's `filterConfig`. -/
inductive Op
  | eq
  | like
  | gte
  | lte
  | inOp
  | between
deriving DecidableEq

/-- One `filterConfig` entry `{ table, field, operator }`; the `table`
reference is collapsed into the field name serving as the column. -/
structure FilterConfigEntry where
  field : String
  operator : Op
deriving DecidableEq

/-- A WHERE predicate as built by the filter/cursor code. -/
inductive SqlPred
  | eqP (col : String) (v : JSValue)
  | likeP (col : String) (pat : String)
  | gteP (col : String) (v : JSValue)
  | lteP (col : String) (v : JSValue)
  | gtP (col : String) (cursor : String)
  | ltP (col : String) (cursor : String)
deriving DecidableEq

/-- An ORDER BY clause: column and direction. -/
structure OrderClause where
  col : String
  dir : Dir
deriving DecidableEq

/-- A database query value: its predicate conjunction, ORDER BY clause
and LIMIT/OFFSET, as accumulated by the builder methods. -/
structure Query where
  preds : List SqlPred := []
  order : Option OrderClause := none
  lim : Option Int := none
  off : Option Int := none
deriving DecidableEq

/-- Builder method `query.where(p)`: append a predicate to the conjunction. -/
def Query.whereC (q : Query) (p : SqlPred) : Query :=
  { q with preds := q.preds ++ [p] }

/-- Builder method `query.orderBy(o)`: set the ORDER BY clause. -/
def Query.orderBy (q : Query) (o : OrderClause) : Query :=
  { q with order := some o }

/-- Builder method `query.limit(n)`: set the LIMIT. -/
def Query.limit (q : Query) (n : Int) : Query :=
  { q with lim := some n }

/-- Builder method `query.offset(n)`: set the OFFSET. -/
def Query.offset (q : Query) (n : Int) : Query :=
  { q with off := some n }

/-- The page-based `pagination` metadata object. -/
structure PagePagination where
  fromPage : Int
  toPage : Int
  limit : Int
  total : Int
  hasNextPage : Bool
  hasPrevPage : Bool
deriving DecidableEq

/-- The page-based response envelope `{ data, pagination }`. -/
structure PageEnvelope (α : Type) where
  data : List α
  pagination : PagePagination
deriving DecidableEq

namespace QueryEngine

/-- Field named by an `ordering` string: `orderBy.startsWith("-")` means
descending, with the field given by `orderBy.slice(1)`. -/
def orderingField (orderBy : String) : String :=
  match orderBy.data with
  | '-' :: rest => String.mk rest
  | _ => orderBy

/-- Direction named by an `ordering` string. -/
def orderingDir (orderBy : String) : Dir :=
  match orderBy.data with
  | '-' :: _ => Dir.desc
  | _ => Dir.asc

/-- Function `applyFilters` of `queryEngine.ts`: for each `(key, value)` filter
entry, look up the key in `filterConfig`; absent keys are skipped.  The
switch handles `eq`/`like`/`gte`/`lte` only (no default case), so any
other configured operator is also skipped.  `gte`/`lte` coerce the raw
string with `Number(value)`. -/
def applyFilters (q : Query) (filters : List (String × String))
    (filterConfig : String → Option FilterConfigEntry) : Query :=
  filters.foldl
    (fun query e =>
      match filterConfig e.1 with
      | none => query
      | some cfg =>
        match cfg.operator with
        | .eq => query.whereC (SqlPred.eqP cfg.field (JSValue.str e.2))
        | .like => query.whereC (SqlPred.likeP cfg.field ("%" ++ e.2 ++ "%"))
        | .gte => query.whereC (SqlPred.gteP cfg.field (jsNumberV e.2))
        | .lte => query.whereC (SqlPred.lteP cfg.field (jsNumberV e.2))
        | _ => query)
    q

/-- Function `applySorting` of `queryEngine.ts`: `orderBy = ordering || defaultOrdering`
(empty string is falsy); the field is looked up in `sortConfig` and, when
present, an ORDER BY is set — when absent the query is returned unchanged
(no ORDER BY is added). -/
def applySorting (q : Query) (ordering : String)
    (sortConfig : String → Option String) (defaultOrdering : String) : Query :=
  let orderBy := if ordering = "" then defaultOrdering else ordering
  match sortConfig (orderingField orderBy) with
  | some col => q.orderBy ⟨col, orderingDir orderBy⟩
  | none => q

/-- A resource entry of `queryEngineConfig.resources`:
`sortConfig` maps a field name to a column reference, `filterConfig`
maps a filter key to its configuration. -/
structure ResourceConfig where
  filterConfig : Option (String → Option FilterConfigEntry)
  sortConfig : Option (String → Option String)
  defaultOrdering : String

/-- The query-building part of `runQuery` in `queryEngine.ts`: the
results query and the count query are produced from the same base query
by the same `applyFilters` call, and only the results query receives the
sorting.  (In the source both locals alias one mutable builder, so each
receives the filter predicates twice; the predicate set is the same
either way, so the immutable reading is used.)  Returns
`(queryForResults, queryForCount)` as handed to `simplePaginate`. -/
def runQueryQueries (baseQuery : Query) (ordering : String)
    (filters : List (String × String)) (resourceConfig : Option ResourceConfig) :
    Query × Query :=
  let filtered :=
    match resourceConfig.bind (·.filterConfig) with
    | some fc => (applyFilters baseQuery filters fc, applyFilters baseQuery filters fc)
    | none => (baseQuery, baseQuery)
  match resourceConfig with
  | some rc =>
    match rc.sortConfig with
    | some sc => (applySorting filtered.1 ordering sc rc.defaultOrdering, filtered.2)
    | none => filtered
  | none => filtered

/-- Function `simplePaginate` of `queryEngine.ts`, executed against the list
`matched` of rows denoted by the filtered (and sorted) query:
the count query — run before any limit/offset is attached — yields
`total = matched.length`; the results query is executed with
`LIMIT limit OFFSET (fromPage - 1) * limit`, modelled by
`List.drop`/`List.take` (`Int.toNat` truncates the negative offsets a
`fromPage < 1` would produce; all claims assume `fromPage ≥ 1`). -/
def simplePaginate {α : Type} (matched : List α)
    (fromPage toPage limit : Int) : PageEnvelope α :=
  let total : Int := matched.length
  let offset := (fromPage - 1) * limit
  let results := (matched.drop offset.toNat).take limit.toNat
  { data := results,
    pagination :=
      { fromPage := fromPage, toPage := toPage, limit := limit, total := total,
        hasNextPage := decide (offset + results.length < total),
        hasPrevPage := decide (1 < fromPage) } }

end QueryEngine

namespace LegacyEngine

/-- Function `simplePaginate` of the legacy query engine (`src/unnamed/part_007`),
executed against the list `matched` of rows denoted by the filtered and
sorted query.  The results are fetched with `LIMIT limit OFFSET offset`;
the count is then taken over `query.limit(1).offset(0)` — a subquery
capped at one row — so the reported `total` is `min(matched.length, 1)`,
and `hasNextPage` is `results.length === limit`. -/
def simplePaginate {α : Type} (matched : List α)
    (fromPage toPage limit : Int) : PageEnvelope α :=
  let offset := (fromPage - 1) * limit
  let results := (matched.drop offset.toNat).take limit.toNat
  let totalCount : Int := (matched.take 1).length
  { data := results,
    pagination :=
      { fromPage := fromPage, toPage := toPage, limit := limit, total := totalCount,
        hasNextPage := decide ((results.length : Int) = limit),
        hasPrevPage := decide (1 < fromPage) } }

end LegacyEngine

/-- Traversal direction of cursor pagination. -/
inductive Direction
  | forward
  | backward
deriving DecidableEq

/-- The cursor-based `pagination` metadata object of `queryHelper.ts`. -/
structure CursorPagination where
  limit : Int
  nextCursor : Option String
  prevCursor : Option String
  hasNextPage : Bool
  hasPrevPage : Bool
deriving DecidableEq

/-- The `PaginatedResponse<T>` envelope of `queryHelper.ts`. -/
structure PaginatedResponse (α : Type) where
  data : List α
  pagination : CursorPagination
deriving DecidableEq

/-- Function `buildPaginatedResponse` of `queryHelper.ts`.  The source reads the
cursor value as `String(row[cursorField])`; the field access and the
`String(...)` conversion are collapsed into the projection `cursorOf`.
`firstRow`/`lastRow` are `data[0]`/`data[data.length - 1]` (both
`undefined` on an empty page). -/
def buildPaginatedResponse {α : Type} (data : List α) (limit : Int)
    (cursorOf : α → String) (hasMore : Bool) (direction : Direction) :
    PaginatedResponse α :=
  let firstRow := data.head?
  let lastRow := data.getLast?
  let nextCursor :=
    if hasMore ∧ direction = Direction.forward then lastRow.map cursorOf else none
  let prevCursor :=
    match direction with
    | .backward => if hasMore then firstRow.map cursorOf else none
    | .forward => firstRow.map cursorOf
  { data := data,
    pagination :=
      { limit := limit, nextCursor := nextCursor, prevCursor := prevCursor,
        hasNextPage := match direction with | .forward => hasMore | .backward => true,
        hasPrevPage := match direction with | .backward => hasMore | .forward => firstRow.isSome } }

/-- The `whereConditions` filter loop of `paginate` in `queryHelper.ts`:
string values become substring `LIKE` predicates, number values (JS
`typeof value === 'number'`, which includes `NaN`) become equality
predicates, and any other value adds no predicate. -/
def paginateFilterConds (filters : List (String × JSValue)) : List SqlPred :=
  filters.foldl
    (fun acc e =>
      match e.2 with
      | .str s => acc ++ [SqlPred.likeP e.1 ("%" ++ s ++ "%")]
      | .num n => acc ++ [SqlPred.eqP e.1 (JSValue.num n)]
      | .nan => acc ++ [SqlPred.eqP e.1 JSValue.nan]
      | _ => acc)
    []

/-- The query built by `paginate` in `queryHelper.ts` before execution
(arguments are the destructured `options` fields): filter conditions,
then — when a truthy cursor is supplied — a strict comparison against
the cursor column (`<` when `sort?.order` is `desc`, else `>`); the
ORDER BY column is `sort?.field || cursorField` with direction
`sort?.order || 'asc'`; the LIMIT is `limit + 1`. -/
def paginateQuery (cursorField : String) (cursor : Option String)
    (sort : Option SortSpec) (filters : List (String × JSValue))
    (limit : Int) : Query :=
  let whereConditions := paginateFilterConds filters
  let whereConditions :=
    match cursor with
    | some c =>
      if c = "" then whereConditions
      else
        let sortOrder := match sort with | some s => s.order | none => Dir.asc
        whereConditions ++
          [if sortOrder = Dir.desc then SqlPred.ltP cursorField c
           else SqlPred.gtP cursorField c]
    | none => whereConditions
  let orderByField :=
    match sort with
    | some s => if s.field = "" then cursorField else s.field
    | none => cursorField
  let orderByDirection := match sort with | some s => s.order | none => Dir.asc
  let q : Query := {}
  let q := if whereConditions.isEmpty then q else { q with preds := whereConditions }
  ((q.orderBy ⟨orderByField, orderByDirection⟩).limit (limit + 1))

/-- The execution tail of `paginate` in `queryHelper.ts`, run against the
list `avail` of rows matching the built where-conditions in query order:
`limit + 1` rows are fetched, `hasMore = results.length > limit`, and the
extra row is truncated with `results.slice(0, limit)` before the response
is assembled by `buildPaginatedResponse` with direction `'forward'`.
(`slice` with a negative `limit` is outside the model; the parser only
produces limits ≥ 1 or `NaN`.) -/
def paginate {α : Type} (avail : List α) (cursorOf : α → String)
    (limit : Int) : PaginatedResponse α :=
  let results := avail.take (limit + 1).toNat
  let hasMore := decide ((results.length : Int) > limit)
  let data := if hasMore then results.take limit.toNat else results
  buildPaginatedResponse data limit cursorOf hasMore Direction.forward

/-- The `PaginatedResult<T>` envelope of the cursor helper (`src/unnamed/part_008`). -/
structure PaginatedResult (α : Type) where
  data : List α
  limit : Int
  nextCursor : Option String
  prevCursor : Option String
  hasNextPage : Bool
  hasPrevPage : Bool
deriving DecidableEq

/-- The `safeLimit` computation of `paginateWithCursor`:
`Number.isFinite(limit) && limit > 0 ? Math.min(limit, 200) : 20`
(`none` = `NaN` is not finite). -/
def safeLimitOf (limit : JSNum) : Int :=
  match limit with
  | some n => if 0 < n then min n 200 else 20
  | none => 20

/-- The query built by `paginateWithCursor` (`src/unnamed/part_008`):
when a truthy cursor is supplied the comparator is `gt` on forward and
`lt` on backward traversal against the cursor column; rows are ordered
by the cursor column ascending on forward and descending on backward
traversal; the LIMIT is `safeLimit + 1`. -/
def paginateWithCursorQuery (cursorColumn : String) (cursor : Option String)
    (limit : JSNum) (direction : Direction) : Query :=
  let comparator : Option SqlPred :=
    match cursor with
    | some c =>
      if c = "" then none
      else some (if direction = Direction.forward then SqlPred.gtP cursorColumn c
                 else SqlPred.ltP cursorColumn c)
    | none => none
  let order : OrderClause :=
    if direction = Direction.forward then ⟨cursorColumn, Dir.asc⟩
    else ⟨cursorColumn, Dir.desc⟩
  match comparator with
  | some p => ((({} : Query).whereC p).orderBy order).limit (safeLimitOf limit + 1)
  | none => (({} : Query).orderBy order).limit (safeLimitOf limit + 1)

/-- Function `paginateWithCursor` (`src/unnamed/part_008`), executed against the
list `avail` of rows matching the comparator in query order: `safeLimit + 1`
rows are fetched, `hasMore = rows.length > safeLimit`, the extra row is
truncated, and on backward traversal the page is reversed.  `hasPrevPage`
on forward traversal is the truthiness of the `cursor` argument. -/
def paginateWithCursor {α : Type} (avail : List α) (cursorOf : α → String)
    (cursor : Option String) (limit : JSNum) (direction : Direction) :
    PaginatedResult α :=
  let safeLimit := safeLimitOf limit
  let rows := avail.take (safeLimit + 1).toNat
  let hasMore := decide ((rows.length : Int) > safeLimit)
  let data := if hasMore then rows.take safeLimit.toNat else rows
  let data := if direction = Direction.backward then data.reverse else data
  let firstRow := data.head?
  let lastRow := data.getLast?
  let nextCursor :=
    if hasMore ∧ direction = Direction.forward then lastRow.map cursorOf else none
  let prevCursor :=
    match direction with
    | .backward => if hasMore then firstRow.map cursorOf else none
    | .forward => firstRow.map cursorOf
  { data := data, limit := safeLimit,
    nextCursor := nextCursor, prevCursor := prevCursor,
    hasNextPage := match direction with | .forward => hasMore | .backward => true,
    hasPrevPage :=
      match direction with
      | .backward => hasMore
      | .forward => match cursor with | some c => decide (c ≠ "") | none => false }

namespace QueryBuilder

/-- Method `QueryBuilder.applyFilters` of `queryBuilder.ts`: entries whose key
is absent from `filterConfig`, or whose value is `null`/`undefined` or
the empty string, are skipped.  `eq`/`like`/`gte`/`lte` add the
corresponding predicate (no numeric coercion here).  The `in` and
`between` branches guard on the value being an array (of length 2 for
`between`) — but their bodies reference `sql`, which `queryBuilder.ts`
never imports, so reaching either body throws a `ReferenceError`,
modelled as `Except.error`; mismatched values fall through silently. -/
def applyFilters (q : Query) (filters : List (String × JSValue))
    (filterConfig : String → Option FilterConfigEntry) : Except String Query :=
  filters.foldlM
    (fun query e =>
      match filterConfig e.1 with
      | none => pure query
      | some cfg =>
        if e.2 = JSValue.null ∨ e.2 = JSValue.str "" then pure query
        else
          match cfg.operator with
          | .eq => pure (query.whereC (SqlPred.eqP cfg.field e.2))
          | .like => pure (query.whereC (SqlPred.likeP cfg.field ("%" ++ e.2.interp ++ "%")))
          | .gte => pure (query.whereC (SqlPred.gteP cfg.field e.2))
          | .lte => pure (query.whereC (SqlPred.lteP cfg.field e.2))
          | .inOp =>
            match e.2 with
            | .arr _ => Except.error "ReferenceError: sql is not defined"
            | _ => pure query
          | .between =>
            match e.2 with
            | .arr elems =>
              if elems.length = 2 then Except.error "ReferenceError: sql is not defined"
              else pure query
            | _ => pure query)
    q

/-- Method `QueryBuilder.applySorting` of `queryBuilder.ts`: when a sort spec is
given and its field exists in `sortConfig`, order by the mapped column in
the requested direction; in every other case order by
`desc(defaultSortField)`. -/
def applySorting (q : Query) (sort : Option SortSpec)
    (sortConfig : String → Option String) (defaultSortField : String) : Query :=
  match sort with
  | some s =>
    match sortConfig s.field with
    | some col => q.orderBy ⟨col, s.order⟩
    | none => q.orderBy ⟨defaultSortField, Dir.desc⟩
  | none => q.orderBy ⟨defaultSortField, Dir.desc⟩

end QueryBuilder

set_option maxRecDepth 4000

/-- Lemma: `applySorting` never changes the predicate list of a query. -/
theorem QueryEngine.applySorting_preds (q : Query) (ordering : String)
    (sc : String → Option String) (d : String) :
    (QueryEngine.applySorting q ordering sc d).preds = q.preds := by
  unfold QueryEngine.applySorting
  cases h : sc (QueryEngine.orderingField (if ordering = "" then d else ordering)) <;>
    simp [h, Query.orderBy]

/-- C1.  The page-based envelope of `queryEngine.ts`'s `simplePaginate`
satisfies the claimed formulas: `hasNextPage ↔ (fromPage - 1) * limit +
length(results) < total` with `total` the number of matching rows, and
`hasPrevPage ↔ fromPage > 1`.  The legacy engine (`src/unnamed/part_007`)
violates them: with 20 matching rows, `fromPage = 2`, `limit = 10`, it
reports `hasNextPage = true` (it computes `results.length === limit`)
although `offset + length(results) = 20 = total`, and reports
`total = 1`. -/
theorem claim_C1_page_envelope_formulas :
    (∀ (α : Type) (matched : List α) (fromPage toPage limit : Int),
      1 ≤ fromPage → 1 ≤ limit →
      ((QueryEngine.simplePaginate matched fromPage toPage limit).pagination.hasNextPage = true ↔
        (fromPage - 1) * limit +
          ((QueryEngine.simplePaginate matched fromPage toPage limit).data.length : Int) <
          matched.length)
      ∧ ((QueryEngine.simplePaginate matched fromPage toPage limit).pagination.hasPrevPage = true ↔
          1 < fromPage)
      ∧ (QueryEngine.simplePaginate matched fromPage toPage limit).pagination.total =
          matched.length)
    ∧ (LegacyEngine.simplePaginate (List.range 20) 2 2 10).pagination.hasNextPage = true
    ∧ ¬(((2 : Int) - 1) * 10 +
          ((LegacyEngine.simplePaginate (List.range 20) 2 2 10).data.length : Int) <
          (List.range 20).length)
    ∧ (LegacyEngine.simplePaginate (List.range 20) 2 2 10).pagination.total = 1 := by
  refine ⟨?_, rfl, by decide, rfl⟩
  intro α matched fromPage toPage limit _ _
  refine ⟨?_, ?_, rfl⟩ <;> simp [QueryEngine.simplePaginate]

/-- Witness for C1 at the spec's own example: 25 matching rows,
`fromPage = 3`, `limit = 10` (offset 20, page of 5 rows). -/
theorem claim_C1_witness :
    (1 ≤ (3 : Int)) ∧ (1 ≤ (10 : Int)) ∧
    (((QueryEngine.simplePaginate (List.range 25) 3 3 10).pagination.hasNextPage = true ↔
        ((3 : Int) - 1) * 10 +
          ((QueryEngine.simplePaginate (List.range 25) 3 3 10).data.length : Int) <
          (List.range 25).length)
      ∧ ((QueryEngine.simplePaginate (List.range 25) 3 3 10).pagination.hasPrevPage = true ↔
          1 < (3 : Int))
      ∧ (QueryEngine.simplePaginate (List.range 25) 3 3 10).pagination.total =
          (List.range 25).length) :=
  ⟨by decide, by decide,
    claim_C1_page_envelope_formulas.1 ℕ (List.range 25) 3 3 10 (by decide) (by decide)⟩

/-- C2.  In `queryEngine.ts`'s `runQuery` the results query and the count
query carry the same filter predicate set, and `simplePaginate`'s `total`
is the full count of matching rows, independent of the pagination window.
The legacy engine (`src/unnamed/part_007`) violates this: its count is
taken over the query after `limit(1).offset(0)` is attached, so with 5
matching rows it reports `total = 1`. -/
theorem claim_C2_total_counts_all_matching :
    (∀ (baseQuery : Query) (ordering : String) (filters : List (String × String))
        (rc : Option QueryEngine.ResourceConfig),
      (QueryEngine.runQueryQueries baseQuery ordering filters rc).1.preds =
        (QueryEngine.runQueryQueries baseQuery ordering filters rc).2.preds)
    ∧ (∀ (α : Type) (matched : List α) (fromPage toPage limit : Int),
        (QueryEngine.simplePaginate matched fromPage toPage limit).pagination.total =
          matched.length)
    ∧ (LegacyEngine.simplePaginate (List.range 5) 1 1 2).pagination.total = 1
    ∧ (List.range 5).length = 5 ∧ ((1 : Int) ≠ 5) := by
  refine ⟨?_, fun α matched fromPage toPage limit => rfl, rfl, rfl, by decide⟩
  intro baseQuery ordering filters rc
  unfold QueryEngine.runQueryQueries
  cases rc with
  | none => rfl
  | some r =>
    cases hf : r.filterConfig <;> cases hs : r.sortConfig <;>
      simp [hf, hs, QueryEngine.applySorting_preds]

/-- Counterexample to C3: the resource-aware parser maps `limit=0` to an
effective limit of 0, which does not lie in `[1, 100]` — values below 1
are not clamped to 1. -/
theorem claim_C3_counterexample :
    (queryParser [("limit", "0")]).limit = some 0 ∧ ¬(1 ≤ (0 : Int)) :=
  ⟨rfl, by decide⟩

/-- C3 (amended).  The simple parser (`parseQueryParams`) clamps a
parsed integer `limit` into `[1, 100]` and defaults to 10 when the
parameter is absent or empty, but a non-numeric value yields `NaN`, not
the default.  The resource-aware parser (`queryParser`) defaults to 20
when the parameter is absent and clamps above to 100, but applies no
lower clamp — zero and negative values pass through — and a non-numeric
value yields `NaN`. -/
theorem claim_C3_limit_clamping_amended :
    (∀ (q : List (String × String)), searchParamsGet q "limit" = none →
      (parseQueryParams q).limit = some 10)
    ∧ (∀ (q : List (String × String)) (s : String) (n : Int),
        searchParamsGet q "limit" = some s → s ≠ "" → jsParseInt s = some n →
        (parseQueryParams q).limit = some (min (max n 1) 100)
        ∧ 1 ≤ min (max n 1) 100 ∧ min (max n 1) 100 ≤ 100)
    ∧ (∀ (q : List (String × String)) (s : String),
        searchParamsGet q "limit" = some s → s ≠ "" → jsParseInt s = none →
        (parseQueryParams q).limit = none)
    ∧ (∀ (q : List (String × String)), searchParamsGet q "limit" = none →
        (queryParser q).limit = some 20)
    ∧ (∀ (q : List (String × String)) (s : String) (n : Int),
        searchParamsGet q "limit" = some s → jsNumber s = some n →
        (queryParser q).limit = some (min n 100))
    ∧ (∀ (q : List (String × String)) (s : String),
        searchParamsGet q "limit" = some s → jsNumber s = none →
        (queryParser q).limit = none)
    ∧ (∀ (q : List (String × String)), searchParamsGet q "limit" = some "" →
        (parseQueryParams q).limit = some 10) := by
  refine ⟨?_, ?_, ?_, ?_, ?_, ?_, ?_⟩
  · intro q h
    simp [parseQueryParams, h, jsParseInt, leadingDigits, digitsVal, jsMin, jsMax]
  · intro q s n h hs hp
    refine ⟨?_, le_min (le_max_right n 1) (by norm_num), min_le_right _ _⟩
    simp [parseQueryParams, h, hs, hp, jsMin, jsMax]
  · intro q s h hs hp
    simp [parseQueryParams, h, hs, hp, jsMin, jsMax]
  · intro q h
    simp [queryParser, h, jsMin, queryEngineConfigDefaultLimit, queryEngineConfigMaxLimit]
  · intro q s n h hp
    simp [queryParser, h, hp, jsMin, queryEngineConfigMaxLimit]
  · intro q s h hp
    simp [queryParser, h, hp, jsMin]
  · intro q h
    simp [parseQueryParams, h, jsParseInt, leadingDigits, digitsVal, jsMin, jsMax]

/-- Witness for C3: `limit=150` is clamped to 100 by the simple parser,
and a present-but-empty `limit` falls back to the default 10. -/
theorem claim_C3_witness :
    searchParamsGet [("limit", "150")] "limit" = some "150" ∧ "150" ≠ "" ∧
    jsParseInt "150" = some 150 ∧
    ((parseQueryParams [("limit", "150")]).limit = some (min (max 150 1) 100)
      ∧ 1 ≤ min (max (150 : Int) 1) 100 ∧ min (max (150 : Int) 1) 100 ≤ 100) ∧
    searchParamsGet [("limit", "")] "limit" = some "" ∧
    (parseQueryParams [("limit", "")]).limit = some 10 :=
  ⟨rfl, by decide, rfl,
    claim_C3_limit_clamping_amended.2.1 [("limit", "150")] "150" 150 rfl (by decide) rfl,
    rfl,
    claim_C3_limit_clamping_amended.2.2.2.2.2.2 [("limit", "")] rfl⟩

/-- Counterexample to C4: the page-based parser maps `from_page=0` to 0 —
zero is not replaced by 1, no clamping is performed. -/
theorem claim_C4_counterexample :
    (queryParser [("from_page", "0")]).fromPage = some 0 ∧ ¬(1 ≤ (0 : Int)) :=
  ⟨rfl, by decide⟩

/-- C4 (amended).  In the page-based parser `from_page` defaults to 1
when absent and `to_page` defaults to `from_page` when absent, but
neither is clamped: a supplied value passes through `Number(...)`
unchanged, so zero and negative values are kept and non-numeric values
become `NaN`. -/
theorem claim_C4_page_defaults_amended :
    (∀ (q : List (String × String)), searchParamsGet q "from_page" = none →
      (queryParser q).fromPage = some 1)
    ∧ (∀ (q : List (String × String)), searchParamsGet q "to_page" = none →
        (queryParser q).toPage = (queryParser q).fromPage)
    ∧ (∀ (q : List (String × String)) (s : String),
        searchParamsGet q "from_page" = some s → (queryParser q).fromPage = jsNumber s)
    ∧ (∀ (q : List (String × String)) (s : String),
        searchParamsGet q "to_page" = some s → (queryParser q).toPage = jsNumber s) := by
  refine ⟨?_, ?_, ?_, ?_⟩ <;> intro q
  · intro h; simp [queryParser, h]
  · intro h; simp [queryParser, h]
  · intro s h; simp [queryParser, h]
  · intro s h; simp [queryParser, h]

/-- Witness for C4: with only `to_page` absent, `to_page` inherits the
supplied `from_page = 7`. -/
theorem claim_C4_witness :
    searchParamsGet [("from_page", "7")] "to_page" = none ∧
    (queryParser [("from_page", "7")]).toPage = (queryParser [("from_page", "7")]).fromPage :=
  ⟨rfl, claim_C4_page_defaults_amended.2.1 [("from_page", "7")] rfl⟩

/-- Counterexample to C5: with `sortConfig = {name, createdAt}` and
`defaultOrdering = "-createdAt"`, the engine's `applySorting` applied to
the unknown explicit ordering `"foo"` sets no ORDER BY at all, while the
default ordering (used when `ordering` is absent) would have set
`createdAt DESC`. -/
theorem claim_C5_counterexample :
    (QueryEngine.applySorting {} "foo"
        (fun f => if f = "name" then some "name"
                  else if f = "createdAt" then some "createdAt" else none)
        "-createdAt").order = none
    ∧ (QueryEngine.applySorting {} ""
        (fun f => if f = "name" then some "name"
                  else if f = "createdAt" then some "createdAt" else none)
        "-createdAt").order = some ⟨"createdAt", Dir.desc⟩
    ∧ (none : Option OrderClause) ≠ some ⟨"createdAt", Dir.desc⟩ :=
  ⟨rfl, rfl, by decide⟩

/-- C5 (amended).  The two sorters degrade differently on an explicit
sort field absent from `sortConfig`: `QueryBuilder.applySorting` falls
back to `defaultSortField DESC` as the claim states, but the engine's
`applySorting` (`queryEngine.ts`) returns the query unchanged — no ORDER
BY is applied; its default is used only when the ordering string is
empty/absent. -/
theorem claim_C5_sorting_fallback_amended :
    (∀ (q : Query) (s : SortSpec) (sc : String → Option String) (d : String),
      sc s.field = none →
      QueryBuilder.applySorting q (some s) sc d = q.orderBy ⟨d, Dir.desc⟩)
    ∧ (∀ (q : Query) (ordering : String) (sc : String → Option String) (d : String),
      ordering ≠ "" → sc (QueryEngine.orderingField ordering) = none →
      QueryEngine.applySorting q ordering sc d = q) := by
  constructor
  · intro q s sc d h
    simp [QueryBuilder.applySorting, h]
  · intro q ordering sc d ho h
    simp [QueryEngine.applySorting, ho, h]

/-- Witness for C5 at the counterexample's configuration. -/
theorem claim_C5_witness :
    ("foo" : String) ≠ "" ∧
    (fun f => if f = "name" then some "name"
              else if f = "createdAt" then some "createdAt" else none)
      (QueryEngine.orderingField "foo") = none ∧
    QueryEngine.applySorting {} "foo"
      (fun f => if f = "name" then some "name"
                else if f = "createdAt" then some "createdAt" else none)
      "-createdAt" = {} :=
  ⟨by decide, rfl,
    claim_C5_sorting_fallback_amended.2 {} "foo"
      (fun f => if f = "name" then some "name"
                else if f = "createdAt" then some "createdAt" else none)
      "-createdAt" (by decide) rfl⟩

/-- A filter entry whose key has no configuration adds no predicate
(engine variant). -/
theorem QueryEngine.applyFiltersQE_skip (q : Query) (e : String × String)
    (rest : List (String × String)) (fc : String → Option FilterConfigEntry)
    (h : fc e.1 = none) :
    QueryEngine.applyFilters q (e :: rest) fc = QueryEngine.applyFilters q rest fc := by
  simp only [QueryEngine.applyFilters, List.foldl_cons, h]

/-- Splitting off the head entry of a filter list (engine variant). -/
theorem QueryEngine.applyFiltersQE_cons_eq (q : Query) (e : String × String)
    (rest : List (String × String)) (fc : String → Option FilterConfigEntry) :
    QueryEngine.applyFilters q (e :: rest) fc =
      QueryEngine.applyFilters (QueryEngine.applyFilters q [e] fc) rest fc := by
  simp only [QueryEngine.applyFilters, List.foldl_cons, List.foldl_nil]

/-- A filter entry whose key has no configuration adds no predicate
(QueryBuilder variant). -/
theorem QueryBuilder.applyFiltersQB_skip (q : Query) (e : String × JSValue)
    (rest : List (String × JSValue)) (fc : String → Option FilterConfigEntry)
    (h : fc e.1 = none) :
    QueryBuilder.applyFilters q (e :: rest) fc = QueryBuilder.applyFilters q rest fc := by
  simp only [QueryBuilder.applyFilters, List.foldlM_cons, h, pure_bind]

/-- Splitting off the head entry of a filter list (QueryBuilder variant). -/
theorem QueryBuilder.applyFiltersQB_cons_eq (q : Query) (e : String × JSValue)
    (rest : List (String × JSValue)) (fc : String → Option FilterConfigEntry) :
    QueryBuilder.applyFilters q (e :: rest) fc =
      QueryBuilder.applyFilters q [e] fc >>= fun q' =>
        QueryBuilder.applyFilters q' rest fc := by
  simp only [QueryBuilder.applyFilters, List.foldlM_cons, List.foldlM_nil, bind_pure]

/-- C6.  In both filter appliers, a filter key absent from the resource's
`filterConfig` is a no-op: applying a filter list equals applying the
same list with every entry under that key removed. -/
theorem claim_C6_unknown_filter_keys_noop :
    (∀ (q : Query) (filters : List (String × String))
        (fc : String → Option FilterConfigEntry) (k : String),
      fc k = none →
      QueryEngine.applyFilters q filters fc =
        QueryEngine.applyFilters q (filters.filter (fun e => e.1 != k)) fc)
    ∧ (∀ (q : Query) (filters : List (String × JSValue))
        (fc : String → Option FilterConfigEntry) (k : String),
      fc k = none →
      QueryBuilder.applyFilters q filters fc =
        QueryBuilder.applyFilters q (filters.filter (fun e => e.1 != k)) fc) := by
  constructor
  · intro q filters fc k hk
    induction filters generalizing q with
    | nil => rfl
    | cons e rest ih =>
      rw [List.filter_cons]
      by_cases he : e.1 = k
      · have hb : (e.1 != k) = false := by simp [he]
        rw [hb, if_neg (by simp)]
        rw [QueryEngine.applyFiltersQE_skip q e rest fc (he ▸ hk)]
        exact ih q
      · have hb : (e.1 != k) = true := by simp [he]
        rw [hb, if_pos rfl]
        rw [QueryEngine.applyFiltersQE_cons_eq q e rest fc,
          QueryEngine.applyFiltersQE_cons_eq q e (rest.filter (fun e => e.1 != k)) fc]
        exact ih _
  · intro q filters fc k hk
    induction filters generalizing q with
    | nil => rfl
    | cons e rest ih =>
      rw [List.filter_cons]
      by_cases he : e.1 = k
      · have hb : (e.1 != k) = false := by simp [he]
        rw [hb, if_neg (by simp)]
        rw [QueryBuilder.applyFiltersQB_skip q e rest fc (he ▸ hk)]
        exact ih q
      · have hb : (e.1 != k) = true := by simp [he]
        rw [hb, if_pos rfl]
        rw [QueryBuilder.applyFiltersQB_cons_eq q e rest fc,
          QueryBuilder.applyFiltersQB_cons_eq q e (rest.filter (fun e => e.1 != k)) fc]
        cases QueryBuilder.applyFilters q [e] fc with
        | error s => rfl
        | ok q' => exact ih q'

/-- Witness for C6: key `"foo"` is not configured, so dropping the entry
`("foo", "bar")` leaves both appliers' results unchanged. -/
theorem claim_C6_witness :
    ((fun f => if f = "name" then some (FilterConfigEntry.mk "name" Op.like) else none) "foo"
      = (none : Option FilterConfigEntry)) ∧
    QueryEngine.applyFilters {} [("foo", "bar"), ("name", "jo")]
        (fun f => if f = "name" then some (FilterConfigEntry.mk "name" Op.like) else none) =
      QueryEngine.applyFilters {}
        ([("foo", "bar"), ("name", "jo")].filter (fun e => e.1 != "foo"))
        (fun f => if f = "name" then some (FilterConfigEntry.mk "name" Op.like) else none) ∧
    QueryBuilder.applyFilters {} [("foo", JSValue.str "bar"), ("name", JSValue.str "jo")]
        (fun f => if f = "name" then some (FilterConfigEntry.mk "name" Op.like) else none) =
      QueryBuilder.applyFilters {}
        ([("foo", JSValue.str "bar"), ("name", JSValue.str "jo")].filter
          (fun e => e.1 != "foo"))
        (fun f => if f = "name" then some (FilterConfigEntry.mk "name" Op.like) else none) :=
  ⟨rfl,
    claim_C6_unknown_filter_keys_noop.1 {} [("foo", "bar"), ("name", "jo")]
      (fun f => if f = "name" then some (FilterConfigEntry.mk "name" Op.like) else none)
      "foo" rfl,
    claim_C6_unknown_filter_keys_noop.2 {}
      [("foo", JSValue.str "bar"), ("name", JSValue.str "jo")]
      (fun f => if f = "name" then some (FilterConfigEntry.mk "name" Op.like) else none)
      "foo" rfl⟩

/-- The effective cursor limit is always at least 1. -/
theorem safeLimitOf_pos (limit : JSNum) : 1 ≤ safeLimitOf limit := by
  cases limit with
  | none => norm_num [safeLimitOf]
  | some n =>
    simp only [safeLimitOf]
    by_cases h : 0 < n
    · rw [if_pos h]; exact le_min (by omega) (by norm_num)
    · rw [if_neg h]; norm_num

/-- Truncating a fetched row list to `sl` rows when it exceeds `sl`
bounds its length by `sl`. -/
theorem length_if_take_le {α : Type} (rows : List α) (sl : Int) (h0 : 0 ≤ sl) :
    (((if decide ((rows.length : Int) > sl) = true
       then rows.take sl.toNat else rows).length : Int)) ≤ sl := by
  by_cases hm : (rows.length : Int) > sl
  · rw [if_pos (by simpa using hm)]
    have h1 : (rows.take sl.toNat).length ≤ sl.toNat := List.length_take_le _ _
    have h2 : ((sl.toNat : Int)) = sl := Int.toNat_of_nonneg h0
    omega
  · rw [if_neg (by simpa using hm)]
    omega

/-- Counterexample to C7: `paginateWithCursor` with `limit = 300` over
201 available rows fetches `safeLimit + 1 = 201` rows (the limit is
clamped to 200), so `hasNextPage` is `true` although the number of
fetched rows (201) does not exceed the requested limit `L = 300`. -/
theorem claim_C7_counterexample :
    (paginateWithCursor (List.range 201) (fun n => toString n) none (some 300)
        Direction.forward).hasNextPage = true
    ∧ ((List.range 201).take (safeLimitOf (some 300) + 1).toNat).length = 201
    ∧ ¬((201 : Int) > 300) :=
  ⟨rfl, rfl, by decide⟩

/-- C7 (amended).  In both cursor paginators the returned `data` never
exceeds the effective limit, and `hasMore` (`hasNextPage` on forward
traversal) is true exactly when the fetched rows exceed the effective
limit (equivalently, when strictly more than the effective limit of rows
were available): for `paginateWithCursor` the effective limit is
`min(L, 200)` when `L > 0` (else 20), which is at most `L` whenever
`L ≥ 1`; for `queryHelper.paginate` it is `L` itself. -/
theorem claim_C7_cursor_truncation_amended :
    (∀ (α : Type) (avail : List α) (f : α → String) (cursor : Option String)
        (limit : JSNum) (dir : Direction),
      ((paginateWithCursor avail f cursor limit dir).data.length : Int) ≤
        safeLimitOf limit)
    ∧ (∀ (α : Type) (avail : List α) (f : α → String) (cursor : Option String)
        (limit : JSNum),
      (paginateWithCursor avail f cursor limit Direction.forward).hasNextPage = true ↔
        safeLimitOf limit <
          ((avail.take (safeLimitOf limit + 1).toNat).length : Int))
    ∧ (∀ (α : Type) (avail : List α) (f : α → String) (cursor : Option String)
        (limit : JSNum),
      (paginateWithCursor avail f cursor limit Direction.forward).hasNextPage = true ↔
        safeLimitOf limit < (avail.length : Int))
    ∧ (∀ (L : Int), 1 ≤ L → safeLimitOf (some L) ≤ L)
    ∧ (∀ (α : Type) (avail : List α) (f : α → String) (limit : Int), 1 ≤ limit →
        ((paginate avail f limit).data.length : Int) ≤ limit
        ∧ ((paginate avail f limit).pagination.hasNextPage = true ↔
            limit < ((avail.take (limit + 1).toNat).length : Int))) := by
  refine ⟨?_, ?_, ?_, ?_, ?_⟩
  · intro α avail f cursor limit dir
    have h0 : (0 : Int) ≤ safeLimitOf limit := le_trans (by norm_num) (safeLimitOf_pos limit)
    cases dir <;>
      simpa [paginateWithCursor] using
        length_if_take_le (avail.take (safeLimitOf limit + 1).toNat) (safeLimitOf limit) h0
  · intro α avail f cursor limit
    simp [paginateWithCursor]
  · intro α avail f cursor limit
    have h0 : (1 : Int) ≤ safeLimitOf limit := safeLimitOf_pos limit
    have hlen : (avail.take (safeLimitOf limit + 1).toNat).length =
        min (safeLimitOf limit + 1).toNat avail.length := List.length_take _ _
    have h1 : (((safeLimitOf limit + 1).toNat : Int)) = safeLimitOf limit + 1 :=
      Int.toNat_of_nonneg (by omega)
    simp only [paginateWithCursor, decide_eq_true_eq, gt_iff_lt]
    rw [hlen]
    omega
  · intro L h
    simp only [safeLimitOf]
    rw [if_pos (by omega)]
    exact min_le_left _ _
  · intro α avail f limit h
    constructor
    · have h0 : (0 : Int) ≤ limit := by omega
      simpa [paginate, buildPaginatedResponse] using
        length_if_take_le (avail.take (limit + 1).toNat) limit h0
    · simp [paginate, buildPaginatedResponse]

/-- Witness for C7: `limit = 2` over three available rows — a full page
of 2 with `hasNextPage = true`, and the clamp is the identity. -/
theorem claim_C7_witness :
    (1 ≤ (2 : Int)) ∧ safeLimitOf (some 2) ≤ 2 ∧
    (((paginate [0, 1, 2] (fun n => toString n) 2).data.length : Int) ≤ 2
      ∧ ((paginate [0, 1, 2] (fun n => toString n) 2).pagination.hasNextPage = true ↔
          (2 : Int) < ((([0, 1, 2] : List ℕ).take ((2 : Int) + 1).toNat).length : Int))) :=
  ⟨by decide,
    claim_C7_cursor_truncation_amended.2.2.2.1 2 (by decide),
    claim_C7_cursor_truncation_amended.2.2.2.2 ℕ [0, 1, 2] (fun n => toString n) 2
      (by decide)⟩

/-- Counterexample to C8: `queryHelper.paginate` with cursor field `"id"`
and an explicit sort on `"name"` orders by `"name"`, not by the cursor
column. -/
theorem claim_C8_counterexample :
    (paginateQuery "id" none (some ⟨"name", Dir.asc⟩) [] 10).order =
      some ⟨"name", Dir.asc⟩
    ∧ ("name" : String) ≠ "id" :=
  ⟨rfl, by decide⟩

/-- C8 (amended).  Both cursor variants use a strict comparison against
the cursor column when a truthy cursor is supplied — `>` on
ascending/forward traversal and `<` on descending/backward traversal.
`paginateWithCursor` also always orders by the cursor column in the
traversal direction; but in `queryHelper.paginate` the ORDER BY column
is `sort.field` whenever an explicit sort is supplied, falling back to
the cursor column only when no sort is given, while the cursor predicate
direction follows `sort.order`. -/
theorem claim_C8_cursor_query_amended :
    (∀ (col : String) (cursor : Option String) (limit : JSNum),
      paginateWithCursorQuery col cursor limit Direction.forward =
        { preds := match cursor with
                   | some c => if c = "" then [] else [SqlPred.gtP col c]
                   | none => []
          order := some ⟨col, Dir.asc⟩
          lim := some (safeLimitOf limit + 1)
          off := none })
    ∧ (∀ (col : String) (cursor : Option String) (limit : JSNum),
      paginateWithCursorQuery col cursor limit Direction.backward =
        { preds := match cursor with
                   | some c => if c = "" then [] else [SqlPred.ltP col c]
                   | none => []
          order := some ⟨col, Dir.desc⟩
          lim := some (safeLimitOf limit + 1)
          off := none })
    ∧ (∀ (cursorField : String) (c : String) (sort : Option SortSpec)
        (filters : List (String × JSValue)) (limit : Int), c ≠ "" →
      (paginateQuery cursorField (some c) sort filters limit).preds =
        paginateFilterConds filters ++
          [if (match sort with | some s => s.order | none => Dir.asc) = Dir.desc
           then SqlPred.ltP cursorField c else SqlPred.gtP cursorField c])
    ∧ (∀ (cursorField : String) (cursor : Option String) (sort : Option SortSpec)
        (filters : List (String × JSValue)) (limit : Int),
      (paginateQuery cursorField cursor sort filters limit).order =
        some ⟨(match sort with
               | some s => if s.field = "" then cursorField else s.field
               | none => cursorField),
              (match sort with | some s => s.order | none => Dir.asc)⟩) := by
  refine ⟨?_, ?_, ?_, ?_⟩
  · intro col cursor limit
    cases cursor with
    | none => simp [paginateWithCursorQuery, Query.whereC, Query.orderBy, Query.limit]
    | some c =>
      by_cases hc : c = "" <;>
        simp [paginateWithCursorQuery, Query.whereC, Query.orderBy, Query.limit, hc]
  · intro col cursor limit
    cases cursor with
    | none => simp [paginateWithCursorQuery, Query.whereC, Query.orderBy, Query.limit]
    | some c =>
      by_cases hc : c = "" <;>
        simp [paginateWithCursorQuery, Query.whereC, Query.orderBy, Query.limit, hc]
  · intro cursorField c sort filters limit hc
    simp only [paginateQuery, if_neg hc]
    have hni : (paginateFilterConds filters ++
        [if (match sort with | some s => s.order | none => Dir.asc) = Dir.desc
         then SqlPred.ltP cursorField c else SqlPred.gtP cursorField c]).isEmpty = false := by
      cases paginateFilterConds filters <;> rfl
    rw [hni]
    simp [Query.orderBy, Query.limit]
  · intro cursorField cursor sort filters limit
    cases cursor with
    | none =>
      cases h : (paginateFilterConds filters).isEmpty <;>
        simp [paginateQuery, h, Query.orderBy, Query.limit]
    | some c =>
      by_cases hc : c = ""
      · cases h : (paginateFilterConds filters).isEmpty <;>
          simp [paginateQuery, h, hc, Query.orderBy, Query.limit]
      · have hni : (paginateFilterConds filters ++
            [if (match sort with | some s => s.order | none => Dir.asc) = Dir.desc
             then SqlPred.ltP cursorField c else SqlPred.gtP cursorField c]).isEmpty = false := by
          cases paginateFilterConds filters <;> rfl
        simp [paginateQuery, hc, hni, Query.orderBy, Query.limit]

/-- Witness for C8: a descending sort on `"name"` with cursor `"k5"` adds
the strict `<` predicate on the cursor column `"id"`. -/
theorem claim_C8_witness :
    ("k5" : String) ≠ "" ∧
    (paginateQuery "id" (some "k5") (some ⟨"name", Dir.desc⟩) [] 10).preds =
      paginateFilterConds [] ++ [SqlPred.ltP "id" "k5"] :=
  ⟨by decide,
    claim_C8_cursor_query_amended.2.2.1 "id" "k5" (some ⟨"name", Dir.desc⟩) [] 10
      (by decide)⟩

/-- C9.  `QueryBuilder.applyFilters` raises: the `in` and `between`
branches reference the unimported `sql`, so an `in` filter given an
array value (or a `between` filter given a 2-element array) throws a
`ReferenceError` instead of completing normally — while genuinely
mismatched values (non-array for `in`, wrong-length array for `between`)
are indeed silently skipped. -/
theorem claim_C9_filters_reference_error :
    QueryBuilder.applyFilters {} [("tags", JSValue.arr [JSPrim.num 1, JSPrim.num 2])]
        (fun k => if k = "tags" then some ⟨"tags", Op.inOp⟩ else none) =
      Except.error "ReferenceError: sql is not defined"
    ∧ QueryBuilder.applyFilters {}
        [("amount", JSValue.arr [JSPrim.num 1, JSPrim.num 2])]
        (fun k => if k = "amount" then some ⟨"amount", Op.between⟩ else none) =
      Except.error "ReferenceError: sql is not defined"
    ∧ QueryBuilder.applyFilters {}
        [("amount", JSValue.arr [JSPrim.num 1, JSPrim.num 2, JSPrim.num 3])]
        (fun k => if k = "amount" then some ⟨"amount", Op.between⟩ else none) =
      Except.ok {}
    ∧ QueryBuilder.applyFilters {} [("tags", JSValue.str "x")]
        (fun k => if k = "tags" then some ⟨"tags", Op.inOp⟩ else none) =
      Except.ok {} :=
  ⟨rfl, rfl, rfl, rfl⟩

/-- On forward traversal `buildPaginatedResponse` reports a previous page
exactly when the returned page is non-empty. -/
theorem buildPaginatedResponse_forward_hasPrevPage {α : Type} (data : List α)
    (limit : Int) (f : α → String) (hasMore : Bool) :
    ((buildPaginatedResponse data limit f hasMore
        Direction.forward).pagination.hasPrevPage = true ↔ data ≠ []) := by
  cases data <;> simp [buildPaginatedResponse]

/-- C10.  On forward traversal, `buildPaginatedResponse` (and hence
`paginate`, which always calls it with direction `'forward'`) reports
`hasPrevPage` exactly when the returned page is non-empty, whereas
`paginateWithCursor` reports `hasPrevPage` exactly when a (truthy)
cursor argument was supplied; on a non-empty first page fetched without
a cursor the two variants disagree (`true` vs `false`). -/
theorem claim_C10_hasPrevPage_disagreement :
    (∀ (α : Type) (data : List α) (limit : Int) (f : α → String) (hasMore : Bool),
      ((buildPaginatedResponse data limit f hasMore
          Direction.forward).pagination.hasPrevPage = true ↔ data ≠ []))
    ∧ (∀ (α : Type) (avail : List α) (f : α → String) (limit : Int),
      ((paginate avail f limit).pagination.hasPrevPage = true ↔
        (paginate avail f limit).data ≠ []))
    ∧ (∀ (α : Type) (avail : List α) (f : α → String) (cursor : Option String)
        (limit : JSNum),
      ((paginateWithCursor avail f cursor limit Direction.forward).hasPrevPage = true ↔
        ∃ c, cursor = some c ∧ c ≠ ""))
    ∧ (paginate [0] (fun n => toString n) 10).pagination.hasPrevPage = true
    ∧ (paginateWithCursor [0] (fun n => toString n) none (some 10)
        Direction.forward).hasPrevPage = false := by
  refine ⟨?_, ?_, ?_, rfl, rfl⟩
  · intro α data limit f hasMore
    exact buildPaginatedResponse_forward_hasPrevPage data limit f hasMore
  · intro α avail f limit
    simp only [paginate]
    rw [buildPaginatedResponse_forward_hasPrevPage]
    simp [buildPaginatedResponse]
  · intro α avail f cursor limit
    cases cursor with
    | none => simp [paginateWithCursor]
    | some c => simp [paginateWithCursor]
